import Mathlib

/-!
# Verification of the MetaBlooms fail-closed audit engine

Shallow embedding of `metablooms_audit.py` and `boot_capability_probe.py`.
Python strings are Lean `String`s (ASCII fragment); the filesystem is an
explicit `FileTree`; exceptions are `Except PyExc`; `ast.parse` /
`json.load` results travel with each file as data (the parse outcome of a
fixed text is fixed, so carrying it alongside the raw text is faithful).
-/

/-- Single-quote character as a string (the Python quote in source patterns). -/
def sQuote : String := "\u0027"

/-- Double-quote character as a string. -/
def dQuote : String := "\u0022"

/-- `needle.isPrefixOf hay` scanned along `hay`:
Python's substring containment `needle in hay`. -/
def containsSubL : List Char → List Char → Bool
  | hay, needle =>
    needle.isPrefixOf hay ||
      match hay with
      | [] => false
      | _ :: t => containsSubL t needle

/-- Python `needle in hay` on strings. -/
def strContainsSub (hay needle : String) : Bool :=
  containsSubL hay.data needle.data

/-- Python `str.endswith`. -/
def strEndsWith (s suffix : String) : Bool :=
  suffix.data.isSuffixOf s.data

/-- Python ASCII `str.lower()`. -/
def pyLower (s : String) : String := String.mk (s.data.map Char.toLower)

/-- Python `str.isupper()` on the ASCII fragment: at least one cased
character and no lower-case character. -/
def pyIsUpper (s : String) : Bool :=
  s.data.any (fun c => c.isAlpha) && s.data.all (fun c => !c.isLower)

/-- Characters since the last separator. -/
def lastComponentAux : List Char → List Char → List Char
  | acc, [] => acc.reverse
  | acc, c :: t => if c = '/' then lastComponentAux [] t else lastComponentAux (c :: acc) t

/-- `pathlib.Path.name`: the final path component. -/
def pyBasename (p : String) : String := String.mk (lastComponentAux [] p.data)

/-- Split a character list on `/`. -/
def splitSlash : List Char → List Char → List (List Char)
  | acc, [] => [acc.reverse]
  | acc, c :: t => if c = '/' then acc.reverse :: splitSlash [] t else splitSlash (c :: acc) t

/-- `a.isPrefixOf b` on the underlying characters. -/
def strIsPrefixOf (a b : String) : Bool := a.data.isPrefixOf b.data

/-- A JSON value as produced by `json.load`. -/
inductive Json where
  | null : Json
  | bool : Bool → Json
  | num : Int → Json
  | str : String → Json
  | arr : List Json → Json
  | obj : List (String × Json) → Json
deriving Repr

/-- Python `dict.get(k, default)` on a JSON object’s key list. -/
def jsonGet (kvs : List (String × Json)) (k : String) (dflt : Json) : Json :=
  match kvs.find? (fun p => p.1 = k) with
  | some p => p.2
  | none => dflt

/-- A Finding: one ordered Python dict literal appended to a bucket. -/
abbrev Finding := List (String × Json)

/-- The five-bucket report (the `AuditReport` dataclass). -/
structure AuditReport where
  verified_implementations : List Finding := []
  present_but_unwired : List Finding := []
  missing : List Finding := []
  spec_conflicts : List Finding := []
  unverifiable : List Finding := []

def emptyReport : AuditReport := {}

/-- Sequential appends of two checks’ findings into the shared report. -/
def mergeReport (a b : AuditReport) : AuditReport where
  verified_implementations := a.verified_implementations ++ b.verified_implementations
  present_but_unwired := a.present_but_unwired ++ b.present_but_unwired
  missing := a.missing ++ b.missing
  spec_conflicts := a.spec_conflicts ++ b.spec_conflicts
  unverifiable := a.unverifiable ++ b.unverifiable

/-! ## The Python AST fragment used by the analyzers

Constructor order of `children` mirrors `ast.iter_child_nodes` field
order. `call` and `functionDef` carry `lineno` because the extractors
read it; nodes the analyzers never inspect are represented by `other`
(carrying their children and their `ast.unparse` rendering). -/

inductive PyConst where
  | str : String → PyConst
  | int : Int → PyConst
  | bool : Bool → PyConst
  | none_ : PyConst
deriving DecidableEq, Repr

inductive PyNode where
  | module : List PyNode → PyNode
  | assign : List PyNode → PyNode → PyNode
  | name : String → PyNode
  | attribute : PyNode → String → PyNode
  | call : PyNode → List PyNode → Nat → PyNode
  | constant : PyConst → PyNode
  | binop : PyNode → String → PyNode → PyNode
  | importStmt : List String → PyNode
  | importFrom : Option String → List String → PyNode
  | functionDef : String → List String → List PyNode → Nat → PyNode
  | joinedStr : List PyNode → PyNode
  | exprStmt : PyNode → PyNode
  | other : List PyNode → String → PyNode
deriving Repr

namespace PyNode

/-- `ast.iter_child_nodes`, in field order. -/
def children : PyNode → List PyNode
  | .module body => body
  | .assign targets value => targets ++ [value]
  | .name _ => []
  | .attribute value _ => [value]
  | .call func args _ => func :: args
  | .constant _ => []
  | .binop l _ r => [l, r]
  | .importStmt _ => []
  | .importFrom _ _ => []
  | .functionDef _ _ body _ => body
  | .joinedStr parts => parts
  | .exprStmt v => [v]
  | .other kids _ => kids

mutual

def nodeSize : PyNode → Nat
  | .module body => 1 + sizeL body
  | .assign targets value => 1 + sizeL targets + nodeSize value
  | .name _ => 1
  | .attribute value _ => 1 + nodeSize value
  | .call func args _ => 1 + nodeSize func + sizeL args
  | .constant _ => 1
  | .binop l _ r => 1 + nodeSize l + nodeSize r
  | .importStmt _ => 1
  | .importFrom _ _ => 1
  | .functionDef _ _ body _ => 1 + sizeL body
  | .joinedStr parts => 1 + sizeL parts
  | .exprStmt v => 1 + nodeSize v
  | .other kids _ => 1 + sizeL kids

def sizeL : List PyNode → Nat
  | [] => 0
  | n :: t => nodeSize n + sizeL t

end

theorem sizeL_append (a b : List PyNode) :
    sizeL (a ++ b) = sizeL a + sizeL b := by
  induction a with
  | nil => simp [sizeL]
  | cons h t ih => simp [sizeL, ih]; omega

theorem sizeL_children_lt (n : PyNode) : sizeL (children n) < nodeSize n := by
  cases n <;> simp [children, nodeSize, sizeL, sizeL_append]

/-- `ast.walk`: breadth-first traversal via a FIFO queue. -/
def walkAux : List PyNode → List PyNode
  | [] => []
  | n :: rest => n :: walkAux (rest ++ children n)
termination_by q => sizeL q
decreasing_by
  simp [sizeL, sizeL_append]
  have h := sizeL_children_lt n
  omega

def walk (n : PyNode) : List PyNode := walkAux [n]

end PyNode

/-! ## Files, the extraction workspace, and exceptions -/

/-- Exceptions the audit code can raise (those not caught locally). -/
inductive PyExc where
  | badZipFile : PyExc
  | unicodeDecodeError : String → PyExc
  | attributeError : String → PyExc
  | typeError : String → PyExc
  | fileNotFound : String → PyExc
deriving DecidableEq, Repr

/-- One decodable source file: its raw text together with the (data-level)
outcome of `ast.parse` and of `json.load` on that text, and its byte size.
`pyAst = none` models `SyntaxError` (message in `pyErr`); `jsonVal = none`
models `json.JSONDecodeError` (message in `jsonErr`). The parse outcome of
a fixed text is fixed, so carrying it with the text is faithful. -/
structure SourceFile where
  text : String := ""
  pyAst : Option PyNode := none
  pyErr : String := ""
  jsonVal : Option Json := none
  jsonErr : String := ""
  sizeBytes : Nat := 0

/-- File contents: decodable text or bytes on which `read_text` raises
`UnicodeDecodeError`. -/
inductive FileData where
  | binary : FileData
  | text : SourceFile → FileData

structure FileEntry where
  path : String
  data : FileData

/-- The materialized extraction workspace: regular files plus explicitly
created directories (parents implied by file paths also count as
existing, see `dirExists`). -/
structure FileTree where
  files : List FileEntry := []
  dirs : List String := []

def FileTree.lookup (t : FileTree) (p : String) : Option FileData :=
  (t.files.find? (fun f => f.path = p)).map (fun f => f.data)

/-- `Path.exists()` for a regular file. -/
def fileExists (t : FileTree) (p : String) : Bool :=
  t.files.any (fun f => f.path = p)

/-- `Path.exists()` for a directory: explicitly created or implied by a
contained file. -/
def dirExists (t : FileTree) (p : String) : Bool :=
  t.dirs.contains p || t.files.any (fun f => strIsPrefixOf (p ++ "/") f.path)

/-- `Path.read_text()`. -/
def readText (t : FileTree) (p : String) : Except PyExc SourceFile :=
  match t.lookup p with
  | some (.text src) => .ok src
  | some .binary => .error (.unicodeDecodeError p)
  | none => .error (.fileNotFound p)

/-- A path with no `/` lives directly in the workspace root. -/
def isTopLevel (p : String) : Bool := !(strContainsSub p "/")

/-! ## BootAnalyzer (static analysis of the boot file) -/

namespace BootAnalyzer

/-- `BootAnalyzer.loads_file`: raw substring check over the source text. -/
def loads_file (src : SourceFile) (filename : String) : Bool :=
  strContainsSub src.text filename

/-- Imports collected by one walk step. -/
def importsStep (acc : List String) (n : PyNode) : List String :=
  match n with
  | .importStmt names => acc ++ names
  | .importFrom (some m) _ => acc ++ [m]
  | .importFrom none _ => acc
  | _ => acc

/-- `BootAnalyzer.extract_imports`: `Import` alias names and `ImportFrom`
modules, in walk order; `[]` when the tree is absent. -/
def extract_imports (src : SourceFile) : List String :=
  match src.pyAst with
  | none => []
  | some tree => (PyNode.walk tree).foldl importsStep []

end BootAnalyzer

/-! ## The `re.search(r'LEDGER_PATH\s*=\s*.+?["\'](.+?)["\']', source)`
model: a backtracking matcher specialized to this pattern. `.` matches any
character except newline; `\s` is modelled on its ASCII members. -/

def sQc : Char := Char.ofNat 39
def dQc : Char := Char.ofNat 34

def isQuoteC (c : Char) : Bool := c = dQc || c = sQc

def isPySpace (c : Char) : Bool :=
  c = ' ' || c = Char.ofNat 9 || c = Char.ofNat 10 || c = Char.ofNat 11 ||
    c = Char.ofNat 12 || c = Char.ofNat 13

def dropSpacesL : List Char → List Char
  | [] => []
  | c :: t => if isPySpace c then dropSpacesL t else c :: t

/-- The capture `(.+?)["\']`: at least one non-newline character, lazily,
up to the first closing quote. -/
def captureAux : List Char → List Char → Option String
  | _, [] => none
  | acc, c :: t =>
      if isQuoteC c then some (String.mk acc.reverse)
      else if c = Char.ofNat 10 then none
      else captureAux (c :: acc) t

def captureGroup : List Char → Option String
  | [] => none
  | c :: t => if c = Char.ofNat 10 then none else captureAux [c] t

/-- Scan for an opening quote consumable after the first lazy `.+?` char,
backtracking past opening quotes whose capture part fails. -/
def tryOpenScan : List Char → Option String
  | [] => none
  | c :: t =>
      if isQuoteC c then
        match captureGroup t with
        | some g => some g
        | none => tryOpenScan t
      else if c = Char.ofNat 10 then none
      else tryOpenScan t

/-- `.+?["\'](.+?)["\']` from a fixed body start. -/
def tryBody : List Char → Option String
  | [] => none
  | c :: t => if c = Char.ofNat 10 then none else tryOpenScan t

/-- Greedy `\s*` before the body, longest first with backtracking. -/
def tryWsBody : List Char → Option String
  | [] => none
  | c :: t =>
      if isPySpace c then
        match tryWsBody t with
        | some g => some g
        | none => tryBody (c :: t)
      else tryBody (c :: t)

/-- Attempt the whole pattern anchored at the current position. The
`\s*=` prefix needs no backtracking because `=` is not a space. -/
def matchLedgerAt (cs : List Char) : Option String :=
  if ("LEDGER_PATH".data).isPrefixOf cs then
    match dropSpacesL (cs.drop 11) with
    | c :: rest => if c = '=' then tryWsBody rest else none
    | [] => none
  else none

/-- `re.search`: leftmost starting position wins. -/
def searchLedgerPath : List Char → Option String
  | [] => none
  | c :: t =>
      match matchLedgerAt (c :: t) with
      | some g => some g
      | none => searchLedgerPath t

def ledgerPathSearch (s : String) : Option String := searchLedgerPath s.data

/-! ## The wiring checks (MetaBloomsAuditor)

Each check is embedded as a function from the workspace tree to the
findings it appends (an `AuditReport` delta), or the exception it raises;
`runChecks` merges the deltas in execution order, which is equivalent to
the sequential appends to `self.report`. -/

def bootName : String := "BOOT_METABLOOMS.py"
def runtimeName : String := "RUN_METABLOOMS.py"

def check_boot_structure (t : FileTree) : Except PyExc AuditReport :=
  if !fileExists t bootName then
    .ok { emptyReport with missing :=
      [[("component", .str bootName), ("reason", .str "File not found in bundle")]] }
  else if !fileExists t runtimeName then
    .ok { emptyReport with missing :=
      [[("component", .str runtimeName), ("reason", .str "File not found in bundle")]] }
  else
    match readText t bootName with
    | .error e => .error e
    | .ok src =>
      match src.pyAst with
      | some _ => .ok { emptyReport with verified_implementations :=
          [[("component", .str bootName),
            ("detail", .str "File exists and is valid Python"),
            ("path", .str bootName)]] }
      | none => .ok { emptyReport with missing :=
          [[("component", .str bootName),
            ("reason", .str ("Syntax error: " ++ src.pyErr))]] }

def check_delta_enforcement (t : FileTree) : Except PyExc AuditReport :=
  if !fileExists t bootName then .ok emptyReport
  else
    match readText t bootName with
    | .error e => .error e
    | .ok src =>
      let loads_latest := BootAnalyzer.loads_file src "latest.json"
      let loads_manifests := BootAnalyzer.loads_file src "manifests"
      let d1 : AuditReport :=
        if !(loads_latest || loads_manifests) then
          { emptyReport with missing :=
            [[("component", .str "Delta manifest loading"),
              ("reason", .str ("No reference to " ++ sQuote ++ "latest.json" ++ sQuote ++
                " or " ++ sQuote ++ "manifests" ++ sQuote ++ " in BOOT_METABLOOMS.py")),
              ("evidence", .str "Static source analysis: 0 occurrences")]] }
        else emptyReport
      let has_delta_hash :=
        strContainsSub (pyLower src.text) "delta" && strContainsSub src.text "sha256"
      let d2 : AuditReport :=
        if !has_delta_hash then
          { emptyReport with missing :=
            [[("component", .str "Delta SHA256 verification"),
              ("reason", .str "No evidence of delta hash verification in boot"),
              ("evidence", .str "Source contains doctrine hash verification only")]] }
        else emptyReport
      .ok (mergeReport d1 d2)

/-- `extract_dir.glob("*gate*.py")`: top-level names containing `gate` and
ending in `.py` (for names ending in `.py` this containment test is
exactly the fnmatch pattern), in directory enumeration order. -/
def gateFiles (t : FileTree) : List String :=
  (t.files.map (fun f => f.path)).filter
    (fun p => isTopLevel p && strContainsSub p "gate" && strEndsWith p ".py")

def check_gate_wiring (t : FileTree) : Except PyExc AuditReport :=
  let gate_files := gateFiles t
  if gate_files.isEmpty then
    .ok { emptyReport with missing :=
      [[("component", .str "Gate infrastructure"), ("reason", .str "No gate files found")]] }
  else if !fileExists t bootName then .ok emptyReport
  else
    match readText t bootName with
    | .error e => .error e
    | .ok src =>
      let imports := BootAnalyzer.extract_imports src
      let gate_imports := imports.filter (fun i => strContainsSub (pyLower i) "gate")
      if gate_imports.isEmpty then
        .ok { emptyReport with present_but_unwired :=
          [[("component", .str "Gate files"),
            ("count", .num (gate_files.length : Int)),
            ("files", .arr ((gate_files.take 10).map (fun g => .str (pyBasename g)))),
            ("reason", .str "Gate files exist but are not imported by BOOT_METABLOOMS.py"),
            ("evidence", .str ("Found " ++ toString gate_files.length ++
              " gate files, 0 gate imports in boot"))]] }
      else
        .ok { emptyReport with verified_implementations :=
          [[("component", .str "Gate imports"),
            ("imports", .arr (gate_imports.map (fun i => .str i)))]] }

/-- `schema_dir.glob("*.json")`: files directly inside `schemas/`. -/
def schemaJsonFiles (t : FileTree) : List String :=
  (t.files.map (fun f => f.path)).filter (fun p =>
    strIsPrefixOf "schemas/" p && !(containsSubL (p.data.drop 8) ['/']) && strEndsWith p ".json")

/-- The validation-evidence loop over top-level `*.py` files; an unreadable
file is skipped (`except: continue`). -/
def validatesSchema (t : FileTree) : Bool :=
  (t.files.filter (fun f => isTopLevel f.path && strEndsWith f.path ".py")).any (fun f =>
    match f.data with
    | .binary => false
    | .text src =>
        strContainsSub src.text "jsonschema" || strContainsSub src.text "validate(")

def check_schema_usage (t : FileTree) : Except PyExc AuditReport :=
  if !dirExists t "schemas" then
    .ok { emptyReport with missing :=
      [[("component", .str "Schema directory"),
        ("reason", .str "schemas/ directory not found")]] }
  else
    let schema_files := schemaJsonFiles t
    if !schema_files.isEmpty && !validatesSchema t then
      .ok { emptyReport with present_but_unwired :=
        [[("component", .str "JSON schemas"),
          ("count", .num (schema_files.length : Int)),
          ("files", .arr (schema_files.map (fun s2 => .str (pyBasename s2)))),
          ("reason", .str "Schema files exist but no validation code found"),
          ("evidence", .str (toString schema_files.length ++ " schemas, 0 jsonschema imports"))]] }
    else .ok emptyReport

/-- `has_ledger_write`: the source mentions `ledger` (case-insensitively)
and contains an `open(` or `.write(` call pattern. -/
def hasLedgerWrite (source : String) : Bool :=
  strContainsSub (pyLower source) "ledger" &&
    (strContainsSub source "open(" || strContainsSub source ".write(")

/-- `has_append_mode`: the source contains an append-mode literal,
`"a"` or 'a'. -/
def hasAppendMode (source : String) : Bool :=
  strContainsSub source (dQuote ++ "a" ++ dQuote) ||
    strContainsSub source (sQuote ++ "a" ++ sQuote)

/-- The extracted ledger path: the `LEDGER_PATH` assignment pattern when
it matches, else the documented default. -/
def extractedLedgerPath (source : String) : String :=
  (ledgerPathSearch source).getD "governance/epistemic_ledger.ndjson"

def check_ledger_integration (t : FileTree) : Except PyExc AuditReport :=
  if !fileExists t bootName then .ok emptyReport
  else
    match readText t bootName with
    | .error e => .error e
    | .ok src =>
      let source := src.text
      if hasLedgerWrite source && hasAppendMode source then
        let ledger_path := extractedLedgerPath source
        .ok { emptyReport with verified_implementations :=
          [[("component", .str "Ledger integration"),
            ("detail", .str "Boot writes to ledger in append mode"),
            ("path", .str ledger_path),
            ("evidence", .str "Source contains ledger open in append mode")]] }
      else
        .ok { emptyReport with missing :=
          [[("component", .str "Ledger integration"),
            ("reason", .str "No evidence of ledger writes in boot")]] }

def check_index_usage (t : FileTree) : Except PyExc AuditReport :=
  if !fileExists t "RUNTIME_INDEX.json" then
    .ok { emptyReport with missing :=
      [[("component", .str "RUNTIME_INDEX.json"),
        ("reason", .str "File not found in bundle")]] }
  else
    match readText t "RUNTIME_INDEX.json" with
    | .error e => .error e
    | .ok src =>
      match src.jsonVal with
      | none => .ok { emptyReport with missing :=
          [[("component", .str "RUNTIME_INDEX.json"),
            ("reason", .str ("Invalid JSON: " ++ src.jsonErr))]] }
      | some (.obj kvs) =>
          .ok { emptyReport with present_but_unwired :=
            [[("component", .str "RUNTIME_INDEX.json"),
              ("size_bytes", .num (src.sizeBytes : Int)),
              ("top_level_keys", .arr (kvs.map (fun kv => .str kv.1))),
              ("reason", .str "Index exists but is not referenced by BOOT_METABLOOMS.py"),
              ("evidence", .str "File exists, not loaded by boot")]] }
      | some _ => .error (.attributeError "keys")

/-- `extract_dir.glob("**/*.py")`: every `.py` file at any depth. -/
def csrgPyFiles (t : FileTree) : List FileEntry :=
  t.files.filter (fun f => strEndsWith f.path ".py")

/-- The matching loop: unreadable files are skipped, a match records the
file's basename. -/
def csrgMatchFiles (t : FileTree) : List String :=
  (csrgPyFiles t).filterMap (fun f =>
    match f.data with
    | .binary => none
    | .text src =>
        if strContainsSub (pyLower src.text) "csrg" then some (pyBasename f.path) else none)

def check_csrg_presence (t : FileTree) : Except PyExc AuditReport :=
  let py_files := csrgPyFiles t
  let csrg_files := csrgMatchFiles t
  if csrg_files.isEmpty then
    .ok { emptyReport with missing :=
      [[("component", .str "CSRG gate"),
        ("reason", .str ("No files contain " ++ sQuote ++ "csrg" ++ sQuote ++
          " or " ++ sQuote ++ "CSRG" ++ sQuote)),
        ("evidence", .str ("Searched " ++ toString py_files.length ++
          " Python files, 0 matches"))]] }
  else
    .ok { emptyReport with unverifiable :=
      [[("component", .str "CSRG gate"),
        ("reason", .str "Files mention CSRG but wiring unclear without execution"),
        ("files", .arr (csrg_files.map (fun n => .str n)))]] }

/-- Python `len` on a JSON value (`TypeError` on numbers/booleans/null). -/
def pyLenJson : Json → Except PyExc Int
  | .arr xs => .ok xs.length
  | .str s2 => .ok s2.length
  | .obj kvs => .ok kvs.length
  | _ => .error (.typeError "object has no len")

def check_manifest_loading (t : FileTree) : Except PyExc AuditReport :=
  if !fileExists t "boot_manifest.json" then
    .ok { emptyReport with missing :=
      [[("component", .str "boot_manifest.json"),
        ("reason", .str "File not found in bundle root")]] }
  else
    match readText t "boot_manifest.json" with
    | .error e => .error e
    | .ok src =>
      match src.jsonVal with
      | none => .ok { emptyReport with missing :=
          [[("component", .str "boot_manifest.json"),
            ("reason", .str ("Invalid JSON: " ++ src.jsonErr))]] }
      | some (.obj kvs) =>
          let preflight := jsonGet kvs "preflight" (.arr [])
          if !fileExists t bootName then .ok emptyReport
          else
            match readText t bootName with
            | .error e => .error e
            | .ok bsrc =>
              if !BootAnalyzer.loads_file bsrc "boot_manifest.json" then
                match pyLenJson preflight with
                | .error e => .error e
                | .ok n =>
                  .ok { emptyReport with present_but_unwired :=
                    [[("component", .str "boot_manifest.json"),
                      ("preflight_count", .num n),
                      ("preflight_gates", preflight),
                      ("reason", .str ("Manifest exists with preflight gates, but " ++
                        "BOOT_METABLOOMS.py never loads it")),
                      ("evidence", .str ("Source analysis: 0 references to " ++
                        sQuote ++ "boot_manifest" ++ sQuote))]] }
              else
                .ok { emptyReport with verified_implementations :=
                  [[("component", .str "boot_manifest.json loading"),
                    ("detail", .str "Boot references manifest file")]] }
      | some _ => .error (.attributeError "get")

/-- `MetaBloomsAuditor.run` after the bundle materialized: the eight checks
in order, stopping at the first uncaught exception. -/
def runChecks (t : FileTree) : Except PyExc AuditReport :=
  match check_boot_structure t with
  | .error e => .error e
  | .ok r1 =>
  match check_delta_enforcement t with
  | .error e => .error e
  | .ok r2 =>
  match check_gate_wiring t with
  | .error e => .error e
  | .ok r3 =>
  match check_schema_usage t with
  | .error e => .error e
  | .ok r4 =>
  match check_ledger_integration t with
  | .error e => .error e
  | .ok r5 =>
  match check_index_usage t with
  | .error e => .error e
  | .ok r6 =>
  match check_csrg_presence t with
  | .error e => .error e
  | .ok r7 =>
  match check_manifest_loading t with
  | .error e => .error e
  | .ok r8 =>
  .ok (mergeReport r1 (mergeReport r2 (mergeReport r3 (mergeReport r4
    (mergeReport r5 (mergeReport r6 (mergeReport r7 r8)))))))

/-! ## Bundle extraction (`zipfile.ZipFile(...).extractall`) -/

/-- One archive member: its stored name and contents. -/
structure ZipEntry where
  name : String
  isDir : Bool := false
  data : FileData := .text {}

/-- The archive as handed to `zipfile.ZipFile`: either unreadable
(`BadZipFile` on open) or a list of members. -/
inductive Bundle where
  | badZip : Bundle
  | zip : List ZipEntry → Bundle

/-- CPython `ZipFile._extract_member` name sanitization on POSIX: split on
the separator and drop empty, `.` and `..` components (there is no drive
to strip). -/
def sanitizeParts (name : String) : List String :=
  ((splitSlash [] name.data).map String.mk).filter
    (fun part => part ≠ "" && part ≠ "." && part ≠ "..")

/-- Join path components with `/`. -/
def joinSlash : List String → String
  | [] => ""
  | [x] => x
  | x :: rest => x ++ "/" ++ joinSlash rest

def sanitizeName (name : String) : String := joinSlash (sanitizeParts name)

/-- Writing an extracted member: a later member with the same target path
overwrites the earlier file in place. -/
def addFile (fs : List FileEntry) (f : FileEntry) : List FileEntry :=
  if fs.any (fun g => g.path = f.path) then
    fs.map (fun g => if g.path = f.path then f else g)
  else fs ++ [f]

/-- `zf.extractall(extract_dir)`: materialize every member under the
workspace root at its sanitized relative path. -/
def materialize (es : List ZipEntry) : FileTree :=
  es.foldl (fun t e =>
    let p := sanitizeName e.name
    if e.isDir then { t with dirs := t.dirs ++ [p] }
    else if p = "" then t
    else { t with files := addFile t.files { path := p, data := e.data } }) {}

/-- `MetaBloomsAuditor.run`: open the archive (aborting on `BadZipFile`),
extract it, then run the checks. -/
def runAudit (b : Bundle) : Except PyExc AuditReport :=
  match b with
  | .badZip => .error .badZipFile
  | .zip es => runChecks (materialize es)

/-- `audit_bundle`: the five-key JSON report. -/
def audit_bundle (b : Bundle) : Except PyExc (List (String × List Finding)) :=
  match runAudit b with
  | .error e => .error e
  | .ok r => .ok
      [("verified_implementations", r.verified_implementations),
       ("present_but_unwired", r.present_but_unwired),
       ("missing", r.missing),
       ("spec_conflicts", r.spec_conflicts),
       ("unverifiable_with_given_tools", r.unverifiable)]

/-! ## BootCapabilityExtractor (`boot_capability_probe.py`) -/

def lbrace : String := String.singleton (Char.ofNat 123)
def rbrace : String := String.singleton (Char.ofNat 125)

mutual

/-- `ast.unparse` on the expression fragment (total on well-formed trees;
`other` nodes carry their own rendering; statements are never unparsed by
the extractor). ASCII string constants render with single quotes. -/
def unparse : PyNode → String
  | .name i => i
  | .constant (.str s2) => sQuote ++ s2 ++ sQuote
  | .constant (.int n) => toString n
  | .constant (.bool b) => if b then "True" else "False"
  | .constant .none_ => "None"
  | .attribute v a => unparse v ++ "." ++ a
  | .call f args _ => unparse f ++ "(" ++ unparseArgs args ++ ")"
  | .binop l op r => unparse l ++ " " ++ op ++ " " ++ unparse r
  | .joinedStr parts => "f" ++ sQuote ++ unparseFParts parts ++ sQuote
  | .other _ txt => txt
  | .module _ => ""
  | .assign _ _ => ""
  | .importStmt _ => ""
  | .importFrom _ _ => ""
  | .functionDef _ _ _ _ => ""
  | .exprStmt _ => ""

def unparseArgs : List PyNode → String
  | [] => ""
  | [a] => unparse a
  | a :: rest => unparse a ++ ", " ++ unparseArgs rest

def unparseFParts : List PyNode → String
  | [] => ""
  | .constant (.str s2) :: rest => s2 ++ unparseFParts rest
  | n :: rest => lbrace ++ unparse n ++ rbrace ++ unparseFParts rest

end

/-- `sorted(set(xs))` on Python strings (code-point order). -/
def pySortedSet (xs : List String) : List String :=
  (xs.eraseDups).mergeSort (fun a b => a ≤ b)

/-- Python dict assignment `d[k] = v`: overwrite in place or append. -/
def dictInsert (d : List (String × String)) (k v : String) : List (String × String) :=
  if d.any (fun p => p.1 = k) then d.map (fun p => if p.1 = k then (k, v) else p)
  else d ++ [(k, v)]

/-- One record of `extract_file_reads`: the two dict shapes the probe
appends. -/
inductive FileRead where
  | attrRead : String → String → Nat → FileRead
  | openCall : String → Nat → FileRead
deriving Repr

structure FuncDef where
  name : String
  params : List String
  line : Nat
  has_fail_closed : Bool
deriving Repr, DecidableEq

structure ExtCall where
  function : String
  line : Nat
deriving Repr, DecidableEq

/-- The probe object: source text plus the `ast.parse` outcome (`error`
attribute defaulting via `getattr(self, 'error', 'Unknown parse error')`). -/
structure BootCapabilityExtractor where
  source : String
  tree : Option PyNode
  errMsg : String := "Unknown parse error"

namespace BootCapabilityExtractor

open PyNode

def fileReadsStep (acc : List FileRead) (n : PyNode) : List FileRead :=
  let acc1 := match n with
    | .call (.attribute (.name v) attr) _ line =>
        if attr = "read_text" || attr = "read_bytes" || attr = "open" then
          acc ++ [.attrRead attr v line]
        else acc
    | _ => acc
  match n with
  | .call (.name f) (a :: _) line =>
      if f = "open" then acc1 ++ [.openCall (unparse a) line] else acc1
  | _ => acc1

def extract_file_reads (tree : PyNode) : List FileRead :=
  (walk tree).foldl fileReadsStep []

/-- The probe’s imports: collected like the analyzer’s, then
`sorted(set(...))`. -/
def extract_imports (tree : PyNode) : List String :=
  pySortedSet ((walk tree).foldl BootAnalyzer.importsStep [])

def pathConstStep (d : List (String × String)) (n : PyNode) : List (String × String) :=
  match n with
  | .assign targets value =>
      targets.foldl (fun d2 tgt =>
        match tgt with
        | .name id2 =>
            if (pyIsUpper id2 && strContainsSub id2 "PATH") || strContainsSub id2 "DIR" then
              dictInsert d2 id2 (unparse value)
            else d2
        | _ => d2) d
  | _ => d

/-- `extract_path_constants`: the probe’s condition is, verbatim from the
source line, `target.id.isupper() and 'PATH' in target.id or 'DIR' in
target.id`, which Python parses as
`(isupper ∧ PATH-in-id) ∨ DIR-in-id`. -/
def extract_path_constants (tree : PyNode) : List (String × String) :=
  (walk tree).foldl pathConstStep []

/-- Scan of a function body (the nested `ast.walk(node)`) for a `_die`
call. -/
def callsDie (n : PyNode) : Bool :=
  (walk n).any (fun m =>
    match m with
    | .call (.name f) _ _ => f = "_die"
    | _ => false)

def funcDefsStep (acc : List FuncDef) (n : PyNode) : List FuncDef :=
  match n with
  | .functionDef nm params body line =>
      acc ++ [⟨nm, params, line, callsDie (.functionDef nm params body line)⟩]
  | _ => acc

def extract_function_defs (tree : PyNode) : List FuncDef :=
  (walk tree).foldl funcDefsStep []

def stdlibNames : List String :=
  ["print", "open", "len", "sorted", "list", "dict", "set", "str", "int",
   "float", "isinstance", "hasattr", "getattr"]

/-- `extract_external_calls`: callee a bare name neither locally defined
nor in the built-in allow-list; deduplicated by (name, line) keeping the
first occurrence. -/
def extract_external_calls (tree : PyNode) : List ExtCall :=
  let defined := (extract_function_defs tree).map (fun f => f.name)
  (((walk tree).foldl (fun acc n =>
    match n with
    | .call (.name f) _ line =>
        if !(defined.contains f) && !(stdlibNames.contains f) then acc ++ [⟨f, line⟩]
        else acc
    | _ => acc) []) : List ExtCall).eraseDups

def extract_string_literals (tree : PyNode) : List String :=
  pySortedSet ((walk tree).foldl (fun acc n =>
    match n with
    | .constant (.str s2) => acc ++ [s2]
    | _ => acc) [])

def dictInsertC (d : List (PyConst × PyConst)) (k v : PyConst) : List (PyConst × PyConst) :=
  if d.any (fun p => p.1 = k) then d.map (fun p => if p.1 = k then (k, v) else p)
  else d ++ [(k, v)]

def exitCodesStep (d : List (PyConst × PyConst)) (n : PyNode) : List (PyConst × PyConst) :=
  match n with
  | .call (.name f) (a0 :: a1 :: _) _ =>
      if f = "_die" then
        match a0 with
        | .constant code =>
            let msg : PyConst :=
              match a1 with
              | .constant m => m
              | .joinedStr _ => .str "<f-string>"
              | _ => .str "<dynamic>"
            dictInsertC d code msg
        | _ => d
      else d
  | _ => d

def extract_exit_codes (tree : PyNode) : List (PyConst × PyConst) :=
  (walk tree).foldl exitCodesStep []

end BootCapabilityExtractor

/-- The complete capability surface (`extract_all`’s dict of seven keys). -/
structure CapabilitySurface where
  file_reads : List FileRead
  imports : List String
  path_constants : List (String × String)
  function_definitions : List FuncDef
  external_calls : List ExtCall
  string_literals : List String
  fail_exit_codes : List (PyConst × PyConst)

/-- `extract_all`’s result: the error dict for an absent tree, or the
surface. -/
inductive ExtractResult where
  | err : String → ExtractResult
  | surface : CapabilitySurface → ExtractResult

def extract_all (e : BootCapabilityExtractor) : ExtractResult :=
  match e.tree with
  | none => .err e.errMsg
  | some t =>
      .surface
        { file_reads := BootCapabilityExtractor.extract_file_reads t
          imports := BootCapabilityExtractor.extract_imports t
          path_constants := BootCapabilityExtractor.extract_path_constants t
          function_definitions := BootCapabilityExtractor.extract_function_defs t
          external_calls := BootCapabilityExtractor.extract_external_calls t
          string_literals := BootCapabilityExtractor.extract_string_literals t
          fail_exit_codes := BootCapabilityExtractor.extract_exit_codes t }

/-! ## General lemmas -/

theorem fileExists_eq_isSome (t : FileTree) (p : String) :
    fileExists t p = (FileTree.lookup t p).isSome := by
  unfold fileExists FileTree.lookup
  induction t.files with
  | nil => rfl
  | cons f fs ih =>
      by_cases hf : f.path = p <;> simp [List.find?_cons, hf, ih]

theorem readText_ok_of_lookup (t : FileTree) (p : String) (src : SourceFile)
    (h : FileTree.lookup t p = some (.text src)) : readText t p = .ok src := by
  unfold readText
  rw [h]

theorem fileExists_of_lookup_text (t : FileTree) (p : String) (src : SourceFile)
    (h : FileTree.lookup t p = some (.text src)) : fileExists t p = true := by
  rw [fileExists_eq_isSome, h]
  rfl

theorem containsSubL_iff_occurs (hay needle : List Char) :
    containsSubL hay needle = true ↔ needle <:+: hay := by
  induction hay with
  | nil =>
      rw [containsSubL]
      simp [List.isPrefixOf_iff_prefix]
  | cons c t ih =>
      rw [containsSubL]
      simp [List.isPrefixOf_iff_prefix, ih, List.infix_cons_iff]

/-- Substring containment follows the infix order: if `mid` occurs in
`hay` and `needle` occurs in `mid`, `needle` occurs in `hay`. -/
theorem strContainsSub_trans (hay mid needle : String)
    (h1 : strContainsSub hay mid = true) (h2 : strContainsSub mid needle = true) :
    strContainsSub hay needle = true := by
  unfold strContainsSub at *
  rw [containsSubL_iff_occurs] at *
  exact h2.trans h1

/-! ## C10 -/

/-- C10: in a bundle where `BOOT_METABLOOMS.py` exists but
`RUN_METABLOOMS.py` does not, `check_boot_structure` records only the
`RUN_METABLOOMS.py` missing Finding and returns — independent of the boot
file's content, so no Finding about the boot file's validity (verified or
missing) is emitted even when the boot file would parse cleanly. -/
theorem C10_boot_without_runtime (t : FileTree)
    (hboot : fileExists t bootName = true)
    (hrun : fileExists t runtimeName = false) :
    check_boot_structure t = .ok { emptyReport with missing :=
      [[("component", .str runtimeName), ("reason", .str "File not found in bundle")]] } := by
  unfold check_boot_structure
  rw [hboot, hrun]
  rfl

/-- The C10 example bundle: a cleanly parsing boot file, no runtime file. -/
def tC10 : FileTree :=
  { files := [⟨bootName, .text { text := "x = 1", pyAst := some (.module []) }⟩] }

/-- Witness for C10 at `tC10`. -/
theorem C10_boot_without_runtime_witness :
    fileExists tC10 bootName = true ∧ fileExists tC10 runtimeName = false ∧
    check_boot_structure tC10 = .ok { emptyReport with missing :=
      [[("component", .str runtimeName), ("reason", .str "File not found in bundle")]] } :=
  ⟨by decide, by decide, C10_boot_without_runtime tC10 (by decide) (by decide)⟩

/-! ## C7 -/

/-- The C7 failing input: the module `outDIR = 'x'` — one assignment whose
target is the single identifier `outDIR`, not entirely upper-case. -/
def c7tree : PyNode := .module [.assign [.name "outDIR"] (.constant (.str "x"))]

/-- C7: the claim — path-constant extraction records an assignment iff
its target is entirely upper-case AND contains `PATH` or `DIR` — fails on
the code: the source condition `target.id.isupper() and 'PATH' in
target.id or 'DIR' in target.id` parses as `(isupper ∧ PATH) ∨ DIR`, so
the non-upper-case target `outDIR` is recorded. -/
theorem C7_lowercase_dir_recorded :
    BootCapabilityExtractor.extract_path_constants c7tree =
      [("outDIR", sQuote ++ "x" ++ sQuote)] ∧
    pyIsUpper "outDIR" = false ∧
    strContainsSub "outDIR" "DIR" = true := by
  refine ⟨?_, by decide, by decide⟩
  simp [BootCapabilityExtractor.extract_path_constants,
    BootCapabilityExtractor.pathConstStep, c7tree, PyNode.walk, PyNode.walkAux,
    PyNode.children, dictInsert, unparse]
  decide

/-! ## C9 -/

/-- C9: `extract_all` is a deterministic pure function of the stored
syntax tree (with the recorded parse-error message): two extractor states
agreeing on those — whatever their remaining state — yield identical
capability surfaces, and an absent tree yields the degenerate error
surface. -/
theorem C9_extract_all_deterministic (e1 e2 : BootCapabilityExtractor)
    (htree : e1.tree = e2.tree) (herr : e1.errMsg = e2.errMsg) :
    extract_all e1 = extract_all e2 ∧
    (e1.tree = none → extract_all e1 = .err e1.errMsg) := by
  constructor
  · unfold extract_all
    rw [htree, herr]
  · intro hnone
    unfold extract_all
    rw [hnone]

/-- Witness for C9: two extractor states over different raw sources but
the same tree produce the same surface; an absent tree degenerates. -/
theorem C9_extract_all_deterministic_witness :
    extract_all ⟨"x = 1", some (.module []), "Unknown parse error"⟩ =
      extract_all ⟨"x  =  1  ", some (.module []), "Unknown parse error"⟩ ∧
    (some (.module []) = (none : Option PyNode) →
      extract_all ⟨"x = 1", some (.module []), "Unknown parse error"⟩ =
        .err "Unknown parse error") :=
  C9_extract_all_deterministic
    ⟨"x = 1", some (.module []), "Unknown parse error"⟩
    ⟨"x  =  1  ", some (.module []), "Unknown parse error"⟩ rfl rfl

/-! ## C2 -/

/-- The C2 example bundle: no boot file; one gate file and a valid,
object-shaped manifest so that the gate-wiring and manifest-loading
checks reach their boot-dependent branch. -/
def tC2 : FileTree :=
  { files := [⟨"alpha_gate.py", .text {}⟩,
              ⟨"boot_manifest.json", .text { text := "{}", jsonVal := some (.obj []) }⟩] }

/-- C2 counterexample: in a bundle without `BOOT_METABLOOMS.py`, the
delta-enforcement, gate-wiring, ledger-integration and manifest-loading
checks do NOT each contribute a `missing` entry — each returns with no
findings at all. -/
theorem C2_counterexample_no_missing_entries :
    fileExists tC2 bootName = false ∧
    check_delta_enforcement tC2 = .ok emptyReport ∧
    check_gate_wiring tC2 = .ok emptyReport ∧
    check_ledger_integration tC2 = .ok emptyReport ∧
    check_manifest_loading tC2 = .ok emptyReport :=
  ⟨by decide, rfl, rfl, rfl, rfl⟩

/-- C2 (amended): when `BOOT_METABLOOMS.py` is absent the boot-structure
check records the missing boot file once; the dependent checks
short-circuit silently — delta-enforcement and ledger-integration emit
nothing, gate-wiring emits nothing provided gate files exist, and
manifest-loading emits nothing provided the manifest exists as a valid
JSON object — rather than crashing or emitting misleading downstream
findings. -/
theorem C2_missing_boot_short_circuits (t : FileTree)
    (h : fileExists t bootName = false) :
    check_boot_structure t = .ok { emptyReport with missing :=
      [[("component", .str bootName), ("reason", .str "File not found in bundle")]] } ∧
    check_delta_enforcement t = .ok emptyReport ∧
    check_ledger_integration t = .ok emptyReport ∧
    ((gateFiles t).isEmpty = false → check_gate_wiring t = .ok emptyReport) ∧
    (∀ src kvs, FileTree.lookup t "boot_manifest.json" = some (.text src) →
      src.jsonVal = some (.obj kvs) → check_manifest_loading t = .ok emptyReport) := by
  refine ⟨?_, ?_, ?_, ?_, ?_⟩
  · unfold check_boot_structure
    rw [h]
    rfl
  · unfold check_delta_enforcement
    rw [h]
    rfl
  · unfold check_ledger_integration
    rw [h]
    rfl
  · intro hg
    unfold check_gate_wiring
    simp only [hg, h]
    rfl
  · intro src kvs hl hj
    have hex := fileExists_of_lookup_text t "boot_manifest.json" src hl
    have hr := readText_ok_of_lookup t "boot_manifest.json" src hl
    unfold check_manifest_loading
    simp only [hex, hr, hj, h]
    rfl

/-- Witness for C2 (amended) at `tC2`. -/
theorem C2_missing_boot_short_circuits_witness :
    check_boot_structure tC2 = .ok { emptyReport with missing :=
      [[("component", .str bootName), ("reason", .str "File not found in bundle")]] } ∧
    check_gate_wiring tC2 = .ok emptyReport ∧
    check_manifest_loading tC2 = .ok emptyReport :=
  ⟨(C2_missing_boot_short_circuits tC2 (by decide)).1,
   (C2_missing_boot_short_circuits tC2 (by decide)).2.2.2.1 (by decide),
   (C2_missing_boot_short_circuits tC2 (by decide)).2.2.2.2
     { text := "{}", jsonVal := some (.obj []) } [] rfl rfl⟩

/-! ## C4 -/

/-- C4: the CSRG keyword check never appends to
`verified_implementations`: when `csrg` occurs (case-insensitively) in at
least one readable source file it emits one
`unverifiable_with_given_tools` Finding listing exactly the matching
files, and when it occurs in none it emits one `missing` Finding. -/
theorem C4_csrg_conservative (t : FileTree) (r : AuditReport)
    (h : check_csrg_presence t = .ok r) :
    r.verified_implementations = [] ∧
    (csrgMatchFiles t ≠ [] →
      r.unverifiable = [[("component", .str "CSRG gate"),
        ("reason", .str "Files mention CSRG but wiring unclear without execution"),
        ("files", .arr ((csrgMatchFiles t).map (fun n => .str n)))]] ∧
      r.missing = []) ∧
    (csrgMatchFiles t = [] →
      r.missing = [[("component", .str "CSRG gate"),
        ("reason", .str ("No files contain " ++ sQuote ++ "csrg" ++ sQuote ++
          " or " ++ sQuote ++ "CSRG" ++ sQuote)),
        ("evidence", .str ("Searched " ++ toString (csrgPyFiles t).length ++
          " Python files, 0 matches"))]] ∧
      r.unverifiable = []) := by
  unfold check_csrg_presence at h
  by_cases hm : csrgMatchFiles t = []
  · simp only [hm, List.isEmpty_nil, if_true] at h
    injection h with hh
    subst hh
    exact ⟨rfl, fun hc => absurd hm hc, fun _ => ⟨rfl, rfl⟩⟩
  · have hne : (csrgMatchFiles t).isEmpty = false := by
      simpa [List.isEmpty_iff] using hm
    simp only [hne, Bool.false_eq_true, if_false] at h
    injection h with hh
    subst hh
    exact ⟨rfl, fun _ => ⟨rfl, rfl⟩, fun hc => absurd hc hm⟩

/-- The C4 example bundle: one nested source file mentioning CSRG, one
unrelated file. -/
def tC4 : FileTree :=
  { files := [⟨"gates/csrg_gate.py", .text { text := "class CSRGGate: pass" }⟩,
              ⟨"util.py", .text { text := "x = 1" }⟩] }

/-- The report `check_csrg_presence` produces on `tC4`. -/
def rC4 : AuditReport :=
  { emptyReport with unverifiable := [[("component", .str "CSRG gate"),
      ("reason", .str "Files mention CSRG but wiring unclear without execution"),
      ("files", .arr ((csrgMatchFiles tC4).map (fun n => .str n)))]] }

/-- Witness for C4 at `tC4` (the matching branch). -/
theorem C4_csrg_conservative_witness :
    csrgMatchFiles tC4 ≠ [] ∧
    rC4.verified_implementations = [] ∧
    rC4.unverifiable = [[("component", .str "CSRG gate"),
      ("reason", .str "Files mention CSRG but wiring unclear without execution"),
      ("files", .arr ((csrgMatchFiles tC4).map (fun n => .str n)))]] ∧
    rC4.missing = [] :=
  ⟨by decide, (C4_csrg_conservative tC4 rC4 rfl).1,
   ((C4_csrg_conservative tC4 rC4 rfl).2.1 (by decide)).1,
   ((C4_csrg_conservative tC4 rC4 rfl).2.1 (by decide)).2⟩

/-! ## C8 -/

/-- The C8 example bundle: boot and runtime files are present and the
boot file parses; the manifest declares the entrypoint `RUN_X.py`, which
does not exist in the bundle. -/
def tC8 : FileTree :=
  { files := [⟨bootName, .text { text := "pass", pyAst := some (.module []) }⟩,
              ⟨runtimeName, .text {}⟩,
              ⟨"boot_manifest.json",
               .text { text := lbrace ++ dQuote ++ "entrypoint" ++ dQuote ++ ": " ++
                         dQuote ++ "RUN_X.py" ++ dQuote ++ rbrace,
                       jsonVal := some (.obj [("entrypoint", .str "RUN_X.py")]) }⟩] }

/-- C8 counterexample: with a manifest declaring the missing entrypoint
`RUN_X.py`, the boot-structure check does NOT produce a missing Finding
citing that name — it lands in `verified_implementations` for the fixed
boot file and emits nothing else. -/
theorem C8_counterexample_entrypoint_ignored :
    jsonGet [("entrypoint", .str "RUN_X.py")] "entrypoint" .null = .str "RUN_X.py" ∧
    fileExists tC8 "RUN_X.py" = false ∧
    check_boot_structure tC8 = .ok { emptyReport with verified_implementations :=
      [[("component", .str bootName),
        ("detail", .str "File exists and is valid Python"),
        ("path", .str bootName)]] } :=
  ⟨rfl, by decide, rfl⟩

/-- C8 (amended): the boot-structure check consults only the fixed
filenames `BOOT_METABLOOMS.py` and `RUN_METABLOOMS.py` — every Finding it
emits names one of those two components, so a manifest-declared
entrypoint is never cited by it (the manifest is read only by
`check_manifest_loading`, which does not test entrypoint existence). -/
theorem C8_boot_structure_components (t : FileTree) (r : AuditReport)
    (h : check_boot_structure t = .ok r) :
    (∀ f ∈ r.missing, jsonGet f "component" .null = .str bootName ∨
      jsonGet f "component" .null = .str runtimeName) ∧
    (∀ f ∈ r.verified_implementations, jsonGet f "component" .null = .str bootName) ∧
    r.present_but_unwired = [] ∧ r.spec_conflicts = [] ∧ r.unverifiable = [] := by
  unfold check_boot_structure at h
  split at h
  · injection h with hh
    subst hh
    refine ⟨?_, by simp [emptyReport], rfl, rfl, rfl⟩
    intro f hf
    rw [List.mem_singleton] at hf
    subst hf
    exact Or.inl rfl
  · split at h
    · injection h with hh
      subst hh
      refine ⟨?_, by simp [emptyReport], rfl, rfl, rfl⟩
      intro f hf
      rw [List.mem_singleton] at hf
      subst hf
      exact Or.inr rfl
    · split at h
      · exact absurd h (by simp)
      · split at h
        · injection h with hh
          subst hh
          refine ⟨by simp [emptyReport], ?_, rfl, rfl, rfl⟩
          intro f hf
          rw [List.mem_singleton] at hf
          subst hf
          rfl
        · injection h with hh
          subst hh
          refine ⟨?_, by simp [emptyReport], rfl, rfl, rfl⟩
          intro f hf
          rw [List.mem_singleton] at hf
          subst hf
          exact Or.inl rfl

/-- The verified Finding `check_boot_structure` emits on `tC8`. -/
def fC8v : Finding :=
  [("component", .str bootName), ("detail", .str "File exists and is valid Python"),
   ("path", .str bootName)]

def rC8 : AuditReport := { emptyReport with verified_implementations := [fC8v] }

/-- Witness for C8 (amended) at `tC8`. -/
theorem C8_boot_structure_components_witness :
    jsonGet fC8v "component" .null = .str bootName ∧
    rC8.present_but_unwired = [] ∧ rC8.unverifiable = [] :=
  ⟨(C8_boot_structure_components tC8 rC8 rfl).2.1 fC8v (List.Mem.head _),
   (C8_boot_structure_components tC8 rC8 rfl).2.2.1,
   (C8_boot_structure_components tC8 rC8 rfl).2.2.2.2⟩

/-! ## C3 -/

/-- The C3 example archive: a single member whose stored name attempts
path traversal. -/
def esC3 : List ZipEntry := [{ name := "../evil.py" }]

/-- C3 counterexample: a traversal entry does not abort the audit — the
loader has no `BundleCorrupt` failure; the member is extracted inside the
workspace (sanitized to `evil.py`) and the audit runs to completion,
returning a report. -/
theorem C3_counterexample_traversal_not_rejected :
    (materialize esC3).files.map (fun f => f.path) = ["evil.py"] ∧
    ∃ r, runAudit (.zip esC3) = .ok r :=
  ⟨rfl, ⟨_, rfl⟩⟩

/-- C3 (amended): extraction sanitizes member names — empty, `.` and `..`
components are dropped — so no write can escape the workspace root; a
traversal entry is silently extracted inside the workspace rather than
rejected (there is no `BundleCorrupt` error in the code), extraction
itself never fails, and only an unreadable archive aborts the audit with
`BadZipFile` before any check runs. -/
theorem C3_sanitized_extraction (nm : String) :
    "" ∉ sanitizeParts nm ∧ "." ∉ sanitizeParts nm ∧ ".." ∉ sanitizeParts nm ∧
    (∀ es, runAudit (.zip es) = runChecks (materialize es)) ∧
    runAudit .badZip = .error .badZipFile := by
  refine ⟨?_, ?_, ?_, fun es => rfl, rfl⟩ <;> simp [sanitizeParts, List.mem_filter]

/-! ## C6 -/

/-- C6: for a bundle containing a readable boot file, the ledger check
emits a `verified_implementations` Finding iff the boot source both
(mentions `ledger` case-insensitively and contains an `open(` or
`.write(` pattern) and contains an append-mode literal — the Finding's
path coming from the `LEDGER_PATH` assignment pattern with the documented
default as fallback; otherwise it emits a `missing` Finding. In
particular a boot source containing `ledger` and an append literal but no
`write(` (hence no `.write(`) and no `open(` lands in `missing`. -/
theorem C6_ledger_check (t : FileTree) (src : SourceFile)
    (h : FileTree.lookup t bootName = some (.text src)) :
    ((hasLedgerWrite src.text && hasAppendMode src.text) = true →
      check_ledger_integration t = .ok { emptyReport with verified_implementations :=
        [[("component", .str "Ledger integration"),
          ("detail", .str "Boot writes to ledger in append mode"),
          ("path", .str ((ledgerPathSearch src.text).getD
            "governance/epistemic_ledger.ndjson")),
          ("evidence", .str "Source contains ledger open in append mode")]] }) ∧
    ((hasLedgerWrite src.text && hasAppendMode src.text) = false →
      check_ledger_integration t = .ok { emptyReport with missing :=
        [[("component", .str "Ledger integration"),
          ("reason", .str "No evidence of ledger writes in boot")]] }) ∧
    (strContainsSub src.text "write(" = false →
      strContainsSub src.text "open(" = false →
      check_ledger_integration t = .ok { emptyReport with missing :=
        [[("component", .str "Ledger integration"),
          ("reason", .str "No evidence of ledger writes in boot")]] }) := by
  have hex := fileExists_of_lookup_text t bootName src h
  have hr := readText_ok_of_lookup t bootName src h
  have hmain : ∀ b, (hasLedgerWrite src.text && hasAppendMode src.text) = b →
      check_ledger_integration t = .ok (if b then
        { emptyReport with verified_implementations :=
          [[("component", .str "Ledger integration"),
            ("detail", .str "Boot writes to ledger in append mode"),
            ("path", .str (extractedLedgerPath src.text)),
            ("evidence", .str "Source contains ledger open in append mode")]] }
        else { emptyReport with missing :=
          [[("component", .str "Ledger integration"),
            ("reason", .str "No evidence of ledger writes in boot")]] }) := by
    intro b hb
    unfold check_ledger_integration
    rw [hex, hr]
    simp only [hb]
    cases b <;> rfl
  refine ⟨fun hb => ?_, fun hb => ?_, fun hw ho => ?_⟩
  · simpa [extractedLedgerPath] using hmain true hb
  · simpa using hmain false hb
  · have hdw : strContainsSub src.text ".write(" = false := by
      cases hc : strContainsSub src.text ".write(" with
      | false => rfl
      | true =>
          exact absurd (strContainsSub_trans src.text ".write(" "write(" hc (by decide))
            (by simp [hw])
    have : hasLedgerWrite src.text = false := by
      unfold hasLedgerWrite
      rw [ho, hdw]
      simp
    simpa using hmain false (by rw [this]; rfl)

/-- The C6 example bundle: the boot source mentions LEDGER and an
append-mode literal but has no `write(` or `open(` pattern. -/
def tC6 : FileTree :=
  { files := [⟨bootName,
      .text { text := "LEDGER = " ++ sQuote ++ "a" ++ sQuote }⟩] }

def srcC6 : SourceFile := { text := "LEDGER = " ++ sQuote ++ "a" ++ sQuote }

/-- Witness for C6 at `tC6` (the concrete scenario branch). -/
theorem C6_ledger_check_witness :
    strContainsSub srcC6.text "write(" = false ∧
    strContainsSub srcC6.text "open(" = false ∧
    strContainsSub (pyLower srcC6.text) "ledger" = true ∧
    hasAppendMode srcC6.text = true ∧
    check_ledger_integration tC6 = .ok { emptyReport with missing :=
      [[("component", .str "Ledger integration"),
        ("reason", .str "No evidence of ledger writes in boot")]] } :=
  ⟨by decide, by decide, by decide, by decide,
   (C6_ledger_check tC6 srcC6 rfl).2.2 (by decide) (by decide)⟩

/-! ## Per-check facts feeding C5: no check ever appends to
`spec_conflicts` -/

theorem check_boot_structure_sc (t : FileTree) (r : AuditReport)
    (h : check_boot_structure t = .ok r) : r.spec_conflicts = [] := by
  unfold check_boot_structure at h
  dsimp only at h
  repeat' split at h
  all_goals cases h
  all_goals rfl

theorem check_delta_enforcement_sc (t : FileTree) (r : AuditReport)
    (h : check_delta_enforcement t = .ok r) : r.spec_conflicts = [] := by
  unfold check_delta_enforcement at h
  dsimp only at h
  repeat' split at h
  all_goals cases h
  all_goals (try simp only [mergeReport])
  all_goals rfl

theorem check_gate_wiring_sc (t : FileTree) (r : AuditReport)
    (h : check_gate_wiring t = .ok r) : r.spec_conflicts = [] := by
  unfold check_gate_wiring at h
  dsimp only at h
  repeat' split at h
  all_goals cases h
  all_goals rfl

theorem check_schema_usage_sc (t : FileTree) (r : AuditReport)
    (h : check_schema_usage t = .ok r) : r.spec_conflicts = [] := by
  unfold check_schema_usage at h
  dsimp only at h
  repeat' split at h
  all_goals cases h
  all_goals rfl

theorem check_ledger_integration_sc (t : FileTree) (r : AuditReport)
    (h : check_ledger_integration t = .ok r) : r.spec_conflicts = [] := by
  unfold check_ledger_integration at h
  dsimp only at h
  repeat' split at h
  all_goals cases h
  all_goals rfl

theorem check_index_usage_sc (t : FileTree) (r : AuditReport)
    (h : check_index_usage t = .ok r) : r.spec_conflicts = [] := by
  unfold check_index_usage at h
  dsimp only at h
  repeat' split at h
  all_goals cases h
  all_goals rfl

theorem check_csrg_presence_sc (t : FileTree) (r : AuditReport)
    (h : check_csrg_presence t = .ok r) : r.spec_conflicts = [] := by
  unfold check_csrg_presence at h
  dsimp only at h
  repeat' split at h
  all_goals cases h
  all_goals rfl

theorem check_manifest_loading_sc (t : FileTree) (r : AuditReport)
    (h : check_manifest_loading t = .ok r) : r.spec_conflicts = [] := by
  unfold check_manifest_loading at h
  dsimp only at h
  repeat' split at h
  all_goals cases h
  all_goals rfl

theorem runChecks_sc (t : FileTree) (r : AuditReport)
    (h : runChecks t = .ok r) : r.spec_conflicts = [] := by
  unfold runChecks at h
  cases h1 : check_boot_structure t with
  | error e => rw [h1] at h; cases h
  | ok r1 =>
  rw [h1] at h
  cases h2 : check_delta_enforcement t with
  | error e => rw [h2] at h; cases h
  | ok r2 =>
  rw [h2] at h
  cases h3 : check_gate_wiring t with
  | error e => rw [h3] at h; cases h
  | ok r3 =>
  rw [h3] at h
  cases h4 : check_schema_usage t with
  | error e => rw [h4] at h; cases h
  | ok r4 =>
  rw [h4] at h
  cases h5 : check_ledger_integration t with
  | error e => rw [h5] at h; cases h
  | ok r5 =>
  rw [h5] at h
  cases h6 : check_index_usage t with
  | error e => rw [h6] at h; cases h
  | ok r6 =>
  rw [h6] at h
  cases h7 : check_csrg_presence t with
  | error e => rw [h7] at h; cases h
  | ok r7 =>
  rw [h7] at h
  cases h8 : check_manifest_loading t with
  | error e => rw [h8] at h; cases h
  | ok r8 =>
  rw [h8] at h
  injection h with hh
  subst hh
  simp [mergeReport, check_boot_structure_sc t r1 h1, check_delta_enforcement_sc t r2 h2,
    check_gate_wiring_sc t r3 h3, check_schema_usage_sc t r4 h4,
    check_ledger_integration_sc t r5 h5, check_index_usage_sc t r6 h6,
    check_csrg_presence_sc t r7 h7, check_manifest_loading_sc t r8 h8]

/-! ## C5 -/

/-- C5: whenever `audit_bundle` produces a report, it is an object with
exactly the five top-level keys in order, each mapped to an array, and
`spec_conflicts` maps to the empty array because no check appends to it. -/
theorem C5_report_shape (b : Bundle) (kvs : List (String × List Finding))
    (h : audit_bundle b = .ok kvs) :
    kvs.map Prod.fst = ["verified_implementations", "present_but_unwired", "missing",
      "spec_conflicts", "unverifiable_with_given_tools"] ∧
    kvs.lookup "spec_conflicts" = some [] := by
  unfold audit_bundle at h
  cases hb : runAudit b with
  | error e => rw [hb] at h; cases h
  | ok r =>
      rw [hb] at h
      injection h with hh
      subst hh
      have hsc : r.spec_conflicts = [] := by
        cases b with
        | badZip => simp [runAudit] at hb
        | zip es => exact runChecks_sc (materialize es) r hb
      refine ⟨rfl, ?_⟩
      rw [hsc]
      rfl

/-- The report object `audit_bundle` produces on an empty archive. -/
def kvsC5 : List (String × List Finding) :=
  match audit_bundle (.zip []) with
  | .ok kvs => kvs
  | .error _ => []

/-- Witness for C5 on the empty archive. -/
theorem C5_report_shape_witness :
    kvsC5.map Prod.fst = ["verified_implementations", "present_but_unwired", "missing",
      "spec_conflicts", "unverifiable_with_given_tools"] ∧
    kvsC5.lookup "spec_conflicts" = some [] :=
  C5_report_shape (.zip []) kvsC5 rfl

/-! ## Per-check facts feeding C1: which conditions keep a check from
raising -/

/-- `read_text` on this optional file would not raise. -/
def bootReadable (t : FileTree) : Bool :=
  match FileTree.lookup t bootName with
  | some .binary => false
  | _ => true

/-- If the file parses as JSON, it parses to an object (else `.keys()` /
`.get` raise `AttributeError`). -/
def jsonObjShaped (src : SourceFile) : Bool :=
  match src.jsonVal with
  | some (.obj _) => true
  | some _ => false
  | none => true

/-- `len` accepts the value (array, string or object). -/
def sizedJson : Json → Bool
  | .arr _ => true
  | .str _ => true
  | .obj _ => true
  | _ => false

/-- The manifest's `preflight` value (defaulting to `[]`) supports `len`. -/
def preflightSized (src : SourceFile) : Bool :=
  match src.jsonVal with
  | some (.obj kvs) => sizedJson (jsonGet kvs "preflight" (.arr []))
  | _ => true

def indexWellShaped (t : FileTree) : Bool :=
  match FileTree.lookup t "RUNTIME_INDEX.json" with
  | some .binary => false
  | some (.text src) => jsonObjShaped src
  | none => true

def manifestWellShaped (t : FileTree) : Bool :=
  match FileTree.lookup t "boot_manifest.json" with
  | some .binary => false
  | some (.text src) => jsonObjShaped src && preflightSized src
  | none => true

/-- All the readability/shape conditions under which no check raises. -/
def wellBehaved (t : FileTree) : Bool :=
  bootReadable t && indexWellShaped t && manifestWellShaped t

theorem exists_ok_ite {c : Prop} [Decidable c] (a b : AuditReport) :
    ∃ r, (if c then (.ok a : Except PyExc AuditReport) else .ok b) = .ok r := by
  by_cases hc : c <;> simp [hc]

theorem pyLenJson_ok (v : Json) (h : sizedJson v = true) : ∃ n, pyLenJson v = .ok n := by
  cases v <;> simp [sizedJson] at h <;> exact ⟨_, rfl⟩

theorem check_boot_structure_ok (t : FileTree)
    (hb : bootReadable t = true) : ∃ r, check_boot_structure t = .ok r := by
  unfold check_boot_structure
  cases hfe : fileExists t bootName with
  | false => exact ⟨_, rfl⟩
  | true =>
      cases hre : fileExists t runtimeName with
      | false => exact ⟨_, rfl⟩
      | true =>
          cases hl : FileTree.lookup t bootName with
          | none => rw [fileExists_eq_isSome, hl] at hfe; cases hfe
          | some d =>
              cases d with
              | binary => unfold bootReadable at hb; rw [hl] at hb; cases hb
              | text src =>
                  rw [readText_ok_of_lookup t bootName src hl]
                  cases hp : src.pyAst <;> simp [hp]

theorem check_delta_enforcement_ok (t : FileTree)
    (hb : bootReadable t = true) : ∃ r, check_delta_enforcement t = .ok r := by
  unfold check_delta_enforcement
  cases hfe : fileExists t bootName with
  | false => exact ⟨_, rfl⟩
  | true =>
      cases hl : FileTree.lookup t bootName with
      | none => rw [fileExists_eq_isSome, hl] at hfe; cases hfe
      | some d =>
          cases d with
          | binary => unfold bootReadable at hb; rw [hl] at hb; cases hb
          | text src =>
              rw [readText_ok_of_lookup t bootName src hl]
              exact ⟨_, rfl⟩

theorem check_gate_wiring_ok (t : FileTree)
    (hb : bootReadable t = true) : ∃ r, check_gate_wiring t = .ok r := by
  unfold check_gate_wiring
  dsimp only
  cases hg : (gateFiles t).isEmpty with
  | true => exact ⟨_, rfl⟩
  | false =>
      cases hfe : fileExists t bootName with
      | false => exact ⟨_, rfl⟩
      | true =>
          cases hl : FileTree.lookup t bootName with
          | none => rw [fileExists_eq_isSome, hl] at hfe; cases hfe
          | some d =>
              cases d with
              | binary => unfold bootReadable at hb; rw [hl] at hb; cases hb
              | text src =>
                  rw [readText_ok_of_lookup t bootName src hl]
                  exact exists_ok_ite _ _

theorem check_schema_usage_ok (t : FileTree) : ∃ r, check_schema_usage t = .ok r := by
  unfold check_schema_usage
  dsimp only
  cases hd : dirExists t "schemas" with
  | false => exact ⟨_, rfl⟩
  | true => exact exists_ok_ite _ _

theorem check_ledger_integration_ok (t : FileTree)
    (hb : bootReadable t = true) : ∃ r, check_ledger_integration t = .ok r := by
  unfold check_ledger_integration
  cases hfe : fileExists t bootName with
  | false => exact ⟨_, rfl⟩
  | true =>
      cases hl : FileTree.lookup t bootName with
      | none => rw [fileExists_eq_isSome, hl] at hfe; cases hfe
      | some d =>
          cases d with
          | binary => unfold bootReadable at hb; rw [hl] at hb; cases hb
          | text src =>
              rw [readText_ok_of_lookup t bootName src hl]
              exact exists_ok_ite _ _

theorem check_index_usage_ok (t : FileTree)
    (hi : indexWellShaped t = true) : ∃ r, check_index_usage t = .ok r := by
  unfold check_index_usage
  cases hfe : fileExists t "RUNTIME_INDEX.json" with
  | false => exact ⟨_, rfl⟩
  | true =>
      cases hl : FileTree.lookup t "RUNTIME_INDEX.json" with
      | none => rw [fileExists_eq_isSome, hl] at hfe; cases hfe
      | some d =>
          cases d with
          | binary => unfold indexWellShaped at hi; rw [hl] at hi; cases hi
          | text src =>
              rw [readText_ok_of_lookup t "RUNTIME_INDEX.json" src hl]
              have hi2 : jsonObjShaped src = true := by
                unfold indexWellShaped at hi
                rw [hl] at hi
                exact hi
              unfold jsonObjShaped at hi2
              cases hj : src.jsonVal with
              | none => simp [hj]
              | some v =>
                  rw [hj] at hi2
                  cases v with
                  | obj kvs => simp [hj]
                  | null => cases hi2
                  | bool bv => cases hi2
                  | num nv => cases hi2
                  | str sv => cases hi2
                  | arr av => cases hi2

theorem check_csrg_presence_ok (t : FileTree) : ∃ r, check_csrg_presence t = .ok r := by
  unfold check_csrg_presence
  dsimp only
  exact exists_ok_ite _ _

theorem check_manifest_loading_ok (t : FileTree)
    (hb : bootReadable t = true) (hm : manifestWellShaped t = true) :
    ∃ r, check_manifest_loading t = .ok r := by
  unfold check_manifest_loading
  cases hfe : fileExists t "boot_manifest.json" with
  | false => exact ⟨_, rfl⟩
  | true =>
      cases hl : FileTree.lookup t "boot_manifest.json" with
      | none => rw [fileExists_eq_isSome, hl] at hfe; cases hfe
      | some d =>
          cases d with
          | binary => unfold manifestWellShaped at hm; rw [hl] at hm; cases hm
          | text msrc =>
              have hrt := readText_ok_of_lookup t "boot_manifest.json" msrc hl
              have hm2 : (jsonObjShaped msrc && preflightSized msrc) = true := by
                unfold manifestWellShaped at hm
                rw [hl] at hm
                exact hm
              have hm3 : jsonObjShaped msrc = true ∧ preflightSized msrc = true := by
                simpa using hm2
              obtain ⟨hmo, hmp⟩ := hm3
              unfold jsonObjShaped at hmo
              cases hj : msrc.jsonVal with
              | none => simp [hrt, hj]
              | some v =>
                  rw [hj] at hmo
                  cases v with
                  | obj kvs =>
                      simp only [hrt, hj]
                      cases hfb : fileExists t bootName with
                      | false => simp [hfb]
                      | true =>
                          cases hlb : FileTree.lookup t bootName with
                          | none => rw [fileExists_eq_isSome, hlb] at hfb; cases hfb
                          | some db =>
                              cases db with
                              | binary =>
                                  unfold bootReadable at hb; rw [hlb] at hb; cases hb
                              | text bsrc =>
                                  simp only [hfb,
                                    readText_ok_of_lookup t bootName bsrc hlb]
                                  have hsz : sizedJson (jsonGet kvs "preflight" (.arr [])) = true := by
                                    unfold preflightSized at hmp
                                    rw [hj] at hmp
                                    exact hmp
                                  obtain ⟨n, hn⟩ := pyLenJson_ok _ hsz
                                  rw [hn]
                                  exact exists_ok_ite _ _
                  | null => cases hmo
                  | bool bv => cases hmo
                  | num nv => cases hmo
                  | str sv => cases hmo
                  | arr av => cases hmo

/-! ## C1 -/

/-- The C1 example archive: the bundle materializes (boot and runtime
files are present) but the boot file does not decode as text. -/
def esC1 : List ZipEntry :=
  [{ name := bootName, data := .binary }, { name := runtimeName }]

/-- C1 counterexample: a bundle whose file tree materializes on which the
audit does NOT return a report — the first check's `read_text` raises and
the exception escapes `run` unconverted (no
`unverifiable_with_given_tools` Finding names the failing check). -/
theorem C1_counterexample_exception_escapes :
    runAudit (.zip esC1) = .error (.unicodeDecodeError bootName) := rfl

/-- C1 (amended): an unreadable archive aborts the audit with
`BadZipFile` before any check runs, and extraction itself never fails;
but `run` has no per-check exception handling — a check's unexpected
exception escapes `run` instead of becoming a Finding. `run` returns a
report exactly under the additional conditions that every file a check
reads decodes and every JSON a check loads is object-shaped with a
sizable preflight list (`wellBehaved`). -/
theorem C1_run_error_propagation :
    runAudit .badZip = .error .badZipFile ∧
    (∀ es, runAudit (.zip es) = runChecks (materialize es)) ∧
    (∀ t, wellBehaved t = true → ∃ r, runChecks t = .ok r) := by
  refine ⟨rfl, fun es => rfl, fun t hw => ?_⟩
  have hparts : bootReadable t = true ∧ indexWellShaped t = true ∧
      manifestWellShaped t = true := by
    simpa [wellBehaved, Bool.and_eq_true, and_assoc] using hw
  obtain ⟨hb, hi, hm⟩ := hparts
  obtain ⟨r1, h1⟩ := check_boot_structure_ok t hb
  obtain ⟨r2, h2⟩ := check_delta_enforcement_ok t hb
  obtain ⟨r3, h3⟩ := check_gate_wiring_ok t hb
  obtain ⟨r4, h4⟩ := check_schema_usage_ok t
  obtain ⟨r5, h5⟩ := check_ledger_integration_ok t hb
  obtain ⟨r6, h6⟩ := check_index_usage_ok t hi
  obtain ⟨r7, h7⟩ := check_csrg_presence_ok t
  obtain ⟨r8, h8⟩ := check_manifest_loading_ok t hb hm
  unfold runChecks
  rw [h1, h2, h3, h4, h5, h6, h7, h8]
  exact ⟨_, rfl⟩

/-- Witness for C1 (amended) on the empty workspace. -/
theorem C1_run_error_propagation_witness :
    runAudit Bundle.badZip = .error .badZipFile ∧
    ∃ r, runChecks ⟨[], []⟩ = .ok r :=
  ⟨C1_run_error_propagation.1, C1_run_error_propagation.2.2 ⟨[], []⟩ (by decide)⟩
